import Mathlib

/-!
# DREAM.AI control-arbitration and bridging layer: a shallow embedding

This file embeds the server-side streaming manager
(`src/backend/api/websocket_stream.py`), the websocket endpoint dispatch loop
(`dreamai/backend/api/app.py`), the synchronous remote-environment client and
its bridge (`src/rl/remote_env.py`), and the autonomous agent loop
(`src/rl/run_agent.py`) as pure Lean functions, and proves the spec claims
C1-C10 about them.

Modelling conventions:
* Python floats are modelled as rationals (`ℚ`); the claims proved here only
  concern accumulation order, which the embedding mirrors exactly.
* A Python dictionary with a fixed key set is a Lean structure; an optional
  key is an `Option` field.
* A Python exception escaping a function is an `Except.error`; functions that
  mutate `self` return the new state explicitly.
* External collaborators (the AI2-THOR environment host) are oracles: each
  call site takes the value that call would produce, and the embedding counts
  how many host calls were performed.
-/

deriving instance DecidableEq for Except

namespace DreamAI

/-- Agent pose as read from `env._last_event.metadata["agent"]` after a step. -/
structure AgentPose where
  x : ℚ
  y : ℚ
  z : ℚ
  rotY : ℚ
deriving Repr, DecidableEq

/-- The server-side `GameStreamManager.current_metrics` dictionary
(`src/backend/api/websocket_stream.py`, lines 24-34): the single authoritative
Metrics State. -/
structure Metrics where
  agent_position : Option (ℚ × ℚ × ℚ)
  agent_rotation : Option ℚ
  episode_reward : ℚ
  step_count : Nat
  last_action_success : Bool
  task_advancement : Option ℚ
  max_task_advancement : Option ℚ
  is_success : Option Bool
  task_type : Option String
deriving Repr, DecidableEq

/-- The fresh metrics dictionary built by `GameStreamManager.__init__` and
reassigned by `handle_reset`. -/
def initialMetrics : Metrics :=
  { agent_position := none
    agent_rotation := none
    episode_reward := 0
    step_count := 0
    last_action_success := true
    task_advancement := none
    max_task_advancement := none
    is_success := none
    task_type := none }

/-- The fixed ordered catalogue of discrete actions.  `tools/actions.py` itself
is not among the provided sources; the catalogue is reconstructed from the
index comments in `src/tools/keyboard_control.py` (keys 0-8), consistent with
`NUM_ACTIONS = 9` in `src/rl/run_agent.py`. -/
def THOR_DISCRETE_ACTIONS : List String :=
  ["MoveAhead", "MoveBack", "RotateLeft", "RotateRight", "LookUp", "LookDown",
   "PickupObject", "DropHandObject", "ToggleObjectOn"]

/-- The optional `task_info` sub-dictionary of a step's info, as read by
`handle_action` (only its `task_advancement` key is consulted). -/
structure TaskSubInfo where
  task_advancement : Option ℚ
deriving Repr, DecidableEq

/-- The `info` dictionary returned by the environment host's `step`, restricted
to the keys `handle_action` reads. -/
structure StepInfo where
  last_action_success : Option Bool
  task_info : Option TaskSubInfo
  task_advancement : Option ℚ
  max_task_advancement : Option ℚ
  is_success : Option Bool
  task_type : Option String
deriving Repr, DecidableEq

/-- `task_info = info.get("task_info") or info` followed by the
`"task_advancement" in task_info` lookup in `handle_action`. -/
def effectiveTaskAdvancement (info : StepInfo) : Option ℚ :=
  match info.task_info with
  | some ti => ti.task_advancement
  | none => info.task_advancement

/-- The tuple returned by the environment host's `step`. -/
structure StepOut where
  obs_shape : List Nat
  reward : ℚ
  terminated : Bool
  truncated : Bool
  info : StepInfo
deriving Repr, DecidableEq

/-- Oracle for one potential `env.step` call: the value it would return (or the
exception it would raise), and the value of `env._last_event` afterwards
(`none` models an absent or falsy last event). -/
structure EnvStepBehavior where
  result : Except String StepOut
  last_event : Option AgentPose
deriving Repr, DecidableEq

/-- The distinct reply dictionaries `handle_action` can return. -/
inductive ActionReply where
  /-- the reply for a message missing the `action` key -/
  | invalidFormat : ActionReply
  /-- the reply for an out-of-range action index -/
  | invalidIndex (idx : Int) : ActionReply
  /-- the arbitration-skip reply, carrying a reason code and the metrics -/
  | skipped (reason : String) (metrics : Metrics) : ActionReply
  /-- the normal step reply -/
  | result (obs_shape : List Nat) (reward : ℚ) (done : Bool) (metrics : Metrics) : ActionReply
deriving Repr, DecidableEq

/-- Whether a reply is an arbitration skip. -/
def ActionReply.isSkipped : ActionReply → Bool
  | .skipped _ _ => true
  | _ => false

/-- Whether a reply is one of the explicit error dictionaries. -/
def ActionReply.isError : ActionReply → Bool
  | .invalidFormat => true
  | .invalidIndex _ => true
  | _ => false

/-- Result of one `handle_action` call: the reply (`Except.error` models a
Python exception escaping the handler), the metrics state afterwards, and how
many times the environment host's `step` was invoked. -/
structure ActionOutcome where
  reply : Except String ActionReply
  metrics : Metrics
  env_step_calls : Nat
deriving Repr, DecidableEq

/-- The metrics update performed by `handle_action` after a successful
`env.step` (`src/backend/api/websocket_stream.py`, lines 134-160).  Each conditional assignment ("overwrite the key iff the
source key is present") is rendered as `Option.or`. -/
def applyStepMetrics (m : Metrics) (s : StepOut) (lastEvent : Option AgentPose) : Metrics :=
  { agent_position := (lastEvent.map fun ev => (ev.x, ev.y, ev.z)).or m.agent_position
    agent_rotation := (lastEvent.map AgentPose.rotY).or m.agent_rotation
    episode_reward := m.episode_reward + s.reward
    step_count := m.step_count + 1
    last_action_success := s.info.last_action_success.getD true
    task_advancement := (effectiveTaskAdvancement s.info).or m.task_advancement
    max_task_advancement := s.info.max_task_advancement.or m.max_task_advancement
    is_success := s.info.is_success.or m.is_success
    task_type := s.info.task_type.or m.task_type }

/-- `GameStreamManager.handle_action` (`src/backend/api/websocket_stream.py`,
lines 102-167).  `action_field` is the message's optional `action` key, `role`
is `connection_roles.get(websocket, "browser")` already resolved, and
`agent_running` is `rl_state.is_rl_agent_running()`. -/
def handle_action (env : EnvStepBehavior) (action_field : Option Int)
    (role : String) (agent_running : Bool) (m : Metrics) : ActionOutcome :=
  match action_field with
  | none => ⟨.ok .invalidFormat, m, 0⟩
  | some idx =>
      if agent_running ∧ role ≠ "rl_agent" then
        ⟨.ok (.skipped "agent_control" m), m, 0⟩
      else if ¬agent_running ∧ role ≠ "browser" then
        ⟨.ok (.skipped "user_control" m), m, 0⟩
      else if ¬(0 ≤ idx ∧ idx < (THOR_DISCRETE_ACTIONS.length : Int)) then
        ⟨.ok (.invalidIndex idx), m, 0⟩
      else
        match env.result with
        | .error e => ⟨.error e, m, 1⟩
        | .ok s =>
            let m' := applyStepMetrics m s env.last_event
            ⟨.ok (.result s.obs_shape s.reward (s.terminated || s.truncated) m'), m', 1⟩

/-- The `agent_position` value found in a reset's info: either a dictionary of
coordinates or some other truthy value (the `isinstance(pos, dict)` branch). -/
inductive PosVal where
  | dict (p : ℚ × ℚ × ℚ) : PosVal
  | other : PosVal
deriving Repr, DecidableEq

/-- The `info` dictionary returned by the environment host's `reset`,
restricted to the keys `handle_reset` reads.  An absent structure models a
falsy `info`. -/
structure ResetInfo where
  task_advancement : Option ℚ
  max_task_advancement : Option ℚ
  is_success : Option Bool
  task_type : Option String
  agent_position : Option PosVal
  agent_rotation : Option ℚ
deriving Repr, DecidableEq

/-- The tuple returned by the environment host's `reset`. -/
structure ResetOut where
  obs_shape : List Nat
  info : Option ResetInfo
deriving Repr, DecidableEq

/-- Oracle for one potential `env.reset` call. -/
structure EnvResetBehavior where
  result : Except String ResetOut
deriving Repr, DecidableEq

/-- The explicit randomization flags of a reset request. -/
structure SceneRand where
  random_agent_spawn : Bool
  random_object_spawn : Bool
deriving Repr, DecidableEq

/-- The fields `handle_reset` reads from an inbound reset message. -/
structure ResetData where
  scene_randomization : Option SceneRand
  randomize : Option Bool
deriving Repr, DecidableEq

/-- The `scene_rand` computation of `handle_reset`
(`src/backend/api/websocket_stream.py`, lines 188-193). -/
def computeSceneRand (d : ResetData) : Option SceneRand :=
  match d.scene_randomization with
  | some sr => some sr
  | none =>
      if d.randomize = some true then some ⟨true, true⟩ else none

/-- The reply dictionary of a successful `handle_reset`. -/
structure ResetReply where
  obs_shape : List Nat
  initial_metrics : Metrics
deriving Repr, DecidableEq

/-- Result of one `handle_reset` call.  The metrics dictionary is reassigned
to a fresh zeroed dictionary *before* the host's `reset` is called, so on an
exception the metrics are already zeroed. -/
structure ResetOutcome where
  reply : Except String ResetReply
  metrics : Metrics
  env_reset_calls : Nat
  options : Option SceneRand
deriving Repr, DecidableEq

/-- The metrics merge `handle_reset` performs from the reset's info
(`src/backend/api/websocket_stream.py`, lines 196-205). -/
def mergeResetInfo (m : Metrics) : Option ResetInfo → Metrics
  | none => m
  | some i =>
      { m with
        task_advancement := i.task_advancement.or m.task_advancement
        max_task_advancement := i.max_task_advancement.or m.max_task_advancement
        is_success := i.is_success.or m.is_success
        task_type := i.task_type.or m.task_type
        agent_position :=
          (i.agent_position.map fun pv =>
            match pv with
            | .dict p => p
            | .other => (0, 0, 0)).or m.agent_position
        agent_rotation := i.agent_rotation.or m.agent_rotation }

/-- `GameStreamManager.handle_reset` (`src/backend/api/websocket_stream.py`,
lines 169-210). -/
def handle_reset (env : EnvResetBehavior) (d : ResetData) : ResetOutcome :=
  let opts := computeSceneRand d
  match env.result with
  | .error e => ⟨.error e, initialMetrics, 1, opts⟩
  | .ok r =>
      let m1 := mergeResetInfo initialMetrics r.info
      ⟨.ok ⟨r.obs_shape, m1⟩, m1, 1, opts⟩

/-- Step sequence: run `handle_action` over a list of (action index, host
behaviour) pairs, threading the metrics state, collecting all outcomes. -/
def runActions (role : String) (agent_running : Bool) :
    List (Int × EnvStepBehavior) → Metrics → List ActionOutcome
  | [], _ => []
  | (idx, env) :: rest, m =>
      let out := handle_action env (some idx) role agent_running m
      out :: runActions role agent_running rest out.metrics

/-- The per-call reward a host behaviour reports (0 when the call raises). -/
def stepReward (env : EnvStepBehavior) : ℚ :=
  match env.result with
  | .ok s => s.reward
  | .error _ => 0

/-! ## Connection registry (`connect` / `disconnect` / roles) -/

/-- Python's `list.remove`: drop the first occurrence, or raise `ValueError`
when the element is absent. -/
def removeFirst : List Nat → Nat → Option (List Nat)
  | [], _ => none
  | x :: xs, y => if x = y then some xs else (removeFirst xs y).map (x :: ·)

/-- The connection registry of `GameStreamManager`: the `connections` list and
the `connection_roles` dictionary (an association list with unique keys). -/
structure Registry where
  connections : List Nat
  connection_roles : List (Nat × String)
deriving Repr, DecidableEq

/-- `dict.pop(ws, None)`: drop the key if present, never raising. -/
def rolesPop (roles : List (Nat × String)) (ws : Nat) : List (Nat × String) :=
  roles.filter (fun p => p.1 ≠ ws)

/-- `GameStreamManager.connect` (the registry part): append the connection and
assign the default role `browser`. -/
def connect (r : Registry) (ws : Nat) : Registry :=
  ⟨r.connections ++ [ws], rolesPop r.connection_roles ws ++ [(ws, "browser")]⟩

/-- `GameStreamManager.disconnect` (`src/backend/api/websocket_stream.py`,
lines 47-51): `connections.remove(websocket)` raises `ValueError` when the
connection is absent (before any mutation); `connection_roles.pop(websocket,
None)` is unconditional. -/
def disconnect (r : Registry) (ws : Nat) : Except String Registry :=
  match removeFirst r.connections ws with
  | none => .error "ValueError"
  | some cs => .ok ⟨cs, rolesPop r.connection_roles ws⟩

/-- `GameStreamManager.set_connection_role`: overwrite the role only for a
still-registered connection. -/
def set_connection_role (r : Registry) (ws : Nat) (role : String) : Registry :=
  if ws ∈ r.connections then
    ⟨r.connections, rolesPop r.connection_roles ws ++ [(ws, role)]⟩
  else r

/-! ## Remote environment client and bridge (`src/rl/remote_env.py`) -/

/-- A decoded observation: `_jpeg_to_chw` is out of scope (black-box codec),
so an observation records the frame payload it was decoded from and the
configured shape.  `source = 0` with `fromFrame = false` is `np.zeros`. -/
structure Obs where
  fromFrame : Bool
  source : Nat
  height : Nat
  width : Nat
deriving Repr, DecidableEq

/-- `_jpeg_to_chw(jpeg_b64, height, width)` as a black-box decode. -/
def jpeg_to_chw (jpeg_b64 : Nat) (height width : Nat) : Obs :=
  ⟨true, jpeg_b64, height, width⟩

/-- `np.zeros(self.observation_space.shape, dtype=np.uint8)`. -/
def zerosObs (height width : Nat) : Obs :=
  ⟨false, 0, height, width⟩

/-- The `data` dictionary of an `action_result` message, restricted to the
keys the bridge reads. -/
structure ResultData where
  hasError : Bool
  skipped : Bool
  reward : Option ℚ
  done : Option Bool
  metrics : Option Metrics
deriving Repr, DecidableEq

/-- The `data` dictionary of a `reset_result` message, restricted to the keys
the bridge reads. -/
structure RData where
  initial_metrics : Option Metrics
deriving Repr, DecidableEq

/-- Wire messages as the bridge's receive loop discriminates them. -/
inductive BridgeMsg where
  | action_result (data : ResultData) : BridgeMsg
  | reset_result (data : RData) : BridgeMsg
  | frame (jpeg_b64 : Nat) : BridgeMsg
  | otherMsg : BridgeMsg
deriving Repr, DecidableEq

/-- Whether a message is an `action_result` whose data carries no `error`
key (the only kind the step-servicing loop accepts). -/
def BridgeMsg.isValidActionResult : BridgeMsg → Bool
  | .action_result d => !d.hasError
  | _ => false

/-- Whether a message is a `reset_result`. -/
def BridgeMsg.isResetResult : BridgeMsg → Bool
  | .reset_result _ => true
  | _ => false

/-- Whether a message is a `frame`. -/
def BridgeMsg.isFrame : BridgeMsg → Bool
  | .frame _ => true
  | _ => false

/-- The info dictionary placed in a bridge response. -/
inductive ClientInfo where
  /-- `dict(metrics)` — a copy of the metrics carried by the result
  (an absent metrics key yields an empty dictionary, modelled `none`) -/
  | fromMetrics (m : Option Metrics) : ClientInfo
  /-- the error dictionary built by the exception handler -/
  | fromError (e : String) : ClientInfo
deriving Repr, DecidableEq

/-- The tuple the bridge pushes onto the response queue. -/
structure BridgeResponse where
  obs : Option Obs
  reward : ℚ
  terminated : Bool
  truncated : Bool
  info : ClientInfo
deriving Repr, DecidableEq

/-- The step-servicing receive loop
(`while action_result is None or frame_data is None`): consume messages until
both an error-free `action_result` and a `frame` are held; a later message of
the same kind overwrites the held one, mirroring the reassignments. Returns
`none` when the (finite) message list is exhausted first, modelling a receive
that blocks forever. -/
def awaitActionParts : List BridgeMsg → Option ResultData → Option Nat →
    Option (ResultData × Nat)
  | _, some d, some j => some (d, j)
  | [], _, _ => none
  | msg :: rest, ar, fd =>
      match msg with
      | .action_result d => awaitActionParts rest (if d.hasError then ar else some d) fd
      | .frame j => awaitActionParts rest ar (some j)
      | _ => awaitActionParts rest ar fd

/-- The reset-servicing receive loop
(`while reset_result is None or frame_data is None`). -/
def awaitResetParts : List BridgeMsg → Option RData → Option Nat →
    Option (RData × Nat)
  | _, some d, some j => some (d, j)
  | [], _, _ => none
  | msg :: rest, rr, fd =>
      match msg with
      | .reset_result d => awaitResetParts rest (some d) fd
      | .frame j => awaitResetParts rest rr (some j)
      | _ => awaitResetParts rest rr fd

/-- Servicing of one `step` request by `_ws_async_loop`
(`src/rl/remote_env.py`, lines 139-168), fed the list of messages the socket
will deliver.  `none` models a loop still blocked in `recv`. -/
def bridge_service_step (height width : Nat) (msgs : List BridgeMsg) :
    Option BridgeResponse :=
  match awaitActionParts msgs none none with
  | none => none
  | some (d, jpeg) =>
      let obs := jpeg_to_chw jpeg height width
      if d.skipped then
        some ⟨some obs, 0, false, false, .fromMetrics d.metrics⟩
      else
        some ⟨some obs, d.reward.getD 0, d.done.getD false, d.done.getD false,
          .fromMetrics d.metrics⟩

/-- Servicing of one `reset` request by `_ws_async_loop`
(`src/rl/remote_env.py`, lines 119-137). -/
def bridge_service_reset (height width : Nat) (msgs : List BridgeMsg) :
    Option BridgeResponse :=
  match awaitResetParts msgs none none with
  | none => none
  | some (d, jpeg) =>
      let obs := jpeg_to_chw jpeg height width
      some ⟨some obs, 0, false, false, .fromMetrics d.initial_metrics⟩

/-- The response the bridge's exception handler enqueues
(`src/rl/remote_env.py`, lines 170-171):
`(None, 0.0, True, True, dict with the error message)`. -/
def bridge_error_response (e : String) : BridgeResponse :=
  ⟨none, 0, true, true, .fromError e⟩

/-- Client-side state of `RemoteThorEnv` relevant to the claims. -/
structure ClientState where
  max_steps : Nat
  step_count : Nat
deriving Repr, DecidableEq

/-- The `max_steps` default of `RemoteThorEnv.__init__`. -/
def default_max_steps : Nat := 500

/-- The tuple `RemoteThorEnv.step` returns to the training loop. -/
structure StepRet where
  obs : Obs
  reward : ℚ
  terminated : Bool
  truncated : Bool
  info : ClientInfo
deriving Repr, DecidableEq

/-- `RemoteThorEnv.step` (`src/rl/remote_env.py`, lines 188-198), applied to
the response popped from the response queue.  Total: it never raises. -/
def client_step (st : ClientState) (height width : Nat) (resp : BridgeResponse) :
    ClientState × StepRet :=
  let st' : ClientState := { st with step_count := st.step_count + 1 }
  let core : Obs × Bool × Bool :=
    match resp.obs with
    | none => (zerosObs height width, true, true)
    | some o => (o, resp.terminated, resp.truncated)
  let trunc := if st'.step_count ≥ st'.max_steps then true else core.2.2
  (st', ⟨core.1, resp.reward, core.2.1, trunc, resp.info⟩)

/-- `RemoteThorEnv.reset` (`src/rl/remote_env.py`, lines 173-186), applied to
the response popped from the response queue.  `Except.error` models the
`RuntimeError("Reset failed")` raised when the observation is `None`. -/
def client_reset (st : ClientState) (resp : BridgeResponse) :
    ClientState × Except String (Obs × ClientInfo) :=
  let st' : ClientState := { st with step_count := 0 }
  (st',
    match resp.obs with
    | none => .error "Reset failed"
    | some o => .ok (o, resp.info))

/-! ## Autonomous agent loop (`src/rl/run_agent.py`, `run_agent_random`) -/

/-- The metrics fields `run_agent_random` can read off a frame message.  Every
broadcast frame also carries `control_mode`; it is part of the payload whether
or not the loop consults it. -/
structure FrameMetrics where
  step_count : Nat
  is_success : Option Bool
  control_mode : Option String
deriving Repr, DecidableEq

/-- Inbound messages as `run_agent_random` discriminates them. -/
inductive AgentMsg where
  | decodeFail : AgentMsg
  | action_result : AgentMsg
  | reset_result : AgentMsg
  | frame (metrics : Option FrameMetrics) : AgentMsg
  | otherType : AgentMsg
deriving Repr, DecidableEq

/-- Wire commands the agent loop can emit. -/
inductive AgentSend where
  | resetRandomize : AgentSend
  | actionCmd (a : Nat) : AgentSend
deriving Repr, DecidableEq

/-- Checkpoint operations: `save_checkpoint` / `load_checkpoint` calls
(`src/rl/run_agent.py`, lines 49-72). -/
inductive CheckpointOp where
  | save : CheckpointOp
  | load : CheckpointOp
deriving Repr, DecidableEq

/-- Mutable state of the `run_agent_random` message loop. -/
structure AgentLoopState where
  last_action_time : ℚ
deriving Repr, DecidableEq

/-- One iteration of the `run_agent_random` inner message loop
(`src/rl/run_agent.py`, lines 151-175).  `now` is the `time.monotonic()`
reading and `randAction` the `random.randint(0, NUM_ACTIONS - 1)` draw for
this iteration; both are oracle inputs.  The returned lists are the wire
commands sent and the checkpoint operations performed in this iteration. -/
def agent_handle_msg (max_steps : Nat) (min_interval : ℚ)
    (msg : AgentMsg) (now : ℚ) (randAction : Nat) (st : AgentLoopState) :
    AgentLoopState × List AgentSend × List CheckpointOp :=
  match msg with
  | .decodeFail => (st, [], [])
  | .action_result => (st, [], [])
  | .reset_result => (st, [], [])
  | .otherType => (st, [], [])
  | .frame mOpt =>
      let metrics := mOpt.getD ⟨0, none, none⟩
      if now - st.last_action_time < min_interval then (st, [], [])
      else
        let st' : AgentLoopState := ⟨now⟩
        if metrics.is_success = some true ∨ metrics.step_count ≥ max_steps then
          (st', [.resetRandomize], [])
        else
          (st', [.actionCmd randAction], [])

/-- Fold the agent loop over a trace of (message, monotonic time, random
draw) triples, collecting every send and checkpoint operation. -/
def agent_run (max_steps : Nat) (min_interval : ℚ) :
    List (AgentMsg × ℚ × Nat) → AgentLoopState →
    AgentLoopState × List AgentSend × List CheckpointOp
  | [], st => (st, [], [])
  | (msg, now, r) :: rest, st =>
      let step := agent_handle_msg max_steps min_interval msg now r st
      let tail := agent_run max_steps min_interval rest step.1
      (tail.1, step.2.1 ++ tail.2.1, step.2.2 ++ tail.2.2)

/-! ## Websocket endpoint dispatch (`dreamai/backend/api/app.py`) -/

/-- Outbound messages the endpoint can send to the sender. -/
inductive ServerMsg where
  | action_result (r : ActionReply) : ServerMsg
  | reset_result (r : ResetReply) : ServerMsg
  | errorMsg (s : String) : ServerMsg
  | streaming_started : ServerMsg
  | streaming_stopped : ServerMsg
deriving Repr, DecidableEq

/-- The server-side state an endpoint iteration touches. -/
structure EndpointState where
  registry : Registry
  metrics : Metrics
  streaming : Bool
deriving Repr, DecidableEq

/-- Inbound client messages for the dispatch branches modelled here. -/
inductive ClientMsg where
  | actionMsg (action_field : Option Int) : ClientMsg
  | resetMsg (d : ResetData) : ClientMsg
  | unknown (typeName : String) : ClientMsg
deriving Repr, DecidableEq

/-- Result of dispatching one inbound message in `websocket_game_endpoint`:
the replies sent to the sender, the state afterwards, whether the connection
is still registered (the outer `except` handler disconnects on an uncaught
exception), and how many environment-host step calls happened. -/
structure DispatchResult where
  replies : List ServerMsg
  state : EndpointState
  connected : Bool
  env_step_calls : Nat
deriving Repr, DecidableEq

/-- The registry after the endpoint's exception-handler disconnect (a
`ValueError` from a double disconnect would escape the handler; either way the
connection is gone). -/
def catchRegistry (reg : Registry) (ws : Nat) : Registry :=
  match disconnect reg ws with
  | .ok r => r
  | .error _ => reg

/-- The outer `except Exception` handler of `websocket_game_endpoint`
(`dreamai/backend/api/app.py`, lines 201-203): no reply, disconnect. -/
def endpointCatch (st : EndpointState) (ws : Nat) (calls : Nat) : DispatchResult :=
  ⟨[], { st with registry := catchRegistry st.registry ws }, false, calls⟩

/-- One iteration of the `websocket_game_endpoint` receive loop
(`dreamai/backend/api/app.py`, lines 105-197) for the `action`, `reset` and
unknown-type branches, with the `GameStreamManager` handlers of
`src/backend/api/websocket_stream.py`.  `stepEnv` and `resetEnv` are the host
oracles for the calls this message can trigger; `resetEnv2` is the endpoint's
own follow-up `game_env.reset()` in the reset branch (line 119). -/
def endpoint_handle (stepEnv : EnvStepBehavior) (resetEnv : EnvResetBehavior)
    (resetEnv2 : Except String Unit) (agent_running : Bool)
    (msg : ClientMsg) (ws : Nat) (st : EndpointState) : DispatchResult :=
  match msg with
  | .actionMsg af =>
      let role := (st.registry.connection_roles.lookup ws).getD "browser"
      let out := handle_action stepEnv af role agent_running st.metrics
      match out.reply with
      | .error _ => endpointCatch { st with metrics := out.metrics } ws out.env_step_calls
      | .ok r =>
          ⟨[.action_result r], { st with metrics := out.metrics }, true,
            out.env_step_calls⟩
  | .resetMsg d =>
      let out := handle_reset resetEnv d
      match out.reply with
      | .error _ => endpointCatch { st with metrics := out.metrics } ws 0
      | .ok r =>
          match resetEnv2 with
          | .error _ => endpointCatch { st with metrics := out.metrics } ws 0
          | .ok _ =>
              ⟨[.reset_result r], { st with metrics := out.metrics }, true, 0⟩
  | .unknown t =>
      ⟨[.errorMsg ("Unknown message type: " ++ t)], st, true, 0⟩

/-! ## Metrics payload delivery (value copy vs shared reference) -/

/-- Metrics as serialized onto a frame message: the metrics dictionary plus
the derived `control_mode` key. -/
structure MetricsWithMode where
  base : Metrics
  control_mode : String
deriving Repr, DecidableEq

/-- How a reply or broadcast message refers to a metrics dictionary before
serialization: `broadcast_frame` builds a fresh dictionary
(`metrics_with_mode`), while `handle_action`'s reply dictionaries store
`self.current_metrics` itself. -/
inductive MetricsPayload where
  | byValue (m : MetricsWithMode) : MetricsPayload
  | byRef : MetricsPayload
deriving Repr, DecidableEq

/-- The payload `broadcast_frame` attaches
(`src/backend/api/websocket_stream.py`, lines 78-87): a new dictionary built
from the metrics value and the derived control mode. -/
def broadcast_metrics_payload (m : Metrics) (agent_running : Bool) : MetricsPayload :=
  .byValue ⟨m, if agent_running then "agent" else "user"⟩

/-- The payload `handle_action`'s reply dictionaries carry: a reference to the
authoritative metrics object. -/
def reply_metrics_payload : MetricsPayload := .byRef

/-- What the consumer's connection actually delivers: the JSON text produced
by `send_json`, a pure value.  A by-reference payload is resolved against the
authoritative metrics at serialization time. -/
inductive DeliveredMetrics where
  | withMode (m : MetricsWithMode) : DeliveredMetrics
  | plain (m : Metrics) : DeliveredMetrics
deriving Repr, DecidableEq

/-- Serialization of a metrics payload at `send_json` time, against the
current authoritative metrics. -/
def send_json (current : Metrics) : MetricsPayload → DeliveredMetrics
  | .byValue mm => .withMode mm
  | .byRef => .plain current

/-- A consumer session: the server's authoritative metrics and the payloads
this consumer has received (each a parsed copy of JSON text). -/
structure ConsumerSession where
  server : Metrics
  received : List DeliveredMetrics
deriving Repr, DecidableEq

/-- Deliver one payload to the consumer: serialize against the current
authoritative metrics and append the resulting value to the consumer's
received list. -/
def deliverPayload (s : ConsumerSession) (p : MetricsPayload) : ConsumerSession :=
  { s with received := s.received ++ [send_json s.server p] }

/-- An arbitrary consumer-side mutation of one received payload. -/
def consumerMutate (f : DeliveredMetrics → DeliveredMetrics) (i : Nat)
    (s : ConsumerSession) : ConsumerSession :=
  { s with received := s.received.set i (f (s.received.getD i (.plain initialMetrics))) }

/-! ## Sample data for witnesses -/

/-- A concrete benign step info. -/
def sampleInfo : StepInfo := ⟨some true, none, none, none, none, none⟩

/-- A concrete step output with reward one half. -/
def sampleStep : StepOut := ⟨[3, 720, 1280], 1/2, false, false, sampleInfo⟩

/-- A concrete host behaviour returning `sampleStep`. -/
def sampleEnv : EnvStepBehavior := ⟨.ok sampleStep, none⟩

/-! ## Theorems -/

/-- C1: for an inbound action message (which, per the wire format, carries the
`action` key) with sender role `r` and agent-process liveness `b`, the action
is admitted — i.e. not answered with a skipped result — exactly when
(`b` and `r` is the agent role `rl_agent`) or (not `b` and `r` is the
browser/operator role); a non-admitted action is answered with the skipped
reply carrying the current metrics snapshot and reason `agent_control` (when
`b`) or `user_control` (when not `b`), performs no environment-host step call
and leaves the metrics state unchanged. -/
theorem handle_action_admission (env : EnvStepBehavior) (idx : Int) (role : String)
    (b : Bool) (m : Metrics) :
    (¬((b = true ∧ role = "rl_agent") ∨ (b = false ∧ role = "browser")) →
      handle_action env (some idx) role b m =
        ⟨.ok (.skipped (if b then "agent_control" else "user_control") m), m, 0⟩) ∧
    (((b = true ∧ role = "rl_agent") ∨ (b = false ∧ role = "browser")) →
      ∀ r ms, (handle_action env (some idx) role b m).reply ≠ .ok (.skipped r ms)) := by
  constructor
  · intro h
    cases b <;> simp_all [handle_action]
  · rintro (⟨hb, hr⟩ | ⟨hb, hr⟩) r ms <;> subst hb <;> subst hr <;>
      simp only [handle_action] <;>
      split <;> simp_all <;> split <;> simp_all <;>
      rcases env.result with e | s <;> simp_all

/-- Witness for C1: with the agent process alive, an action from a
`browser`-role connection is skipped with reason `agent_control`, the metrics
snapshot attached, no step call made. -/
theorem handle_action_admission_witness :
    handle_action sampleEnv (some 3) "browser" true initialMetrics =
      ⟨.ok (.skipped "agent_control" initialMetrics), initialMetrics, 0⟩ :=
  (handle_action_admission sampleEnv 3 "browser" true initialMetrics).1 (by decide)

/-- C8: an admitted action message whose index is outside
`[0, len(THOR_DISCRETE_ACTIONS))` is answered with the explicit invalid-index
error reply, triggers no environment-host step call and leaves the metrics
unchanged; a message missing the `action` key is likewise answered with the
invalid-format error reply with no call and no mutation (for any sender). -/
theorem handle_action_validation (env : EnvStepBehavior) (idx : Int) (role : String)
    (b : Bool) (m : Metrics) :
    (((b = true ∧ role = "rl_agent") ∨ (b = false ∧ role = "browser")) →
      (idx < 0 ∨ (THOR_DISCRETE_ACTIONS.length : Int) ≤ idx) →
      handle_action env (some idx) role b m = ⟨.ok (.invalidIndex idx), m, 0⟩) ∧
    handle_action env none role b m = ⟨.ok .invalidFormat, m, 0⟩ := by
  refine ⟨?_, rfl⟩
  rintro (⟨hb, hr⟩ | ⟨hb, hr⟩) hout <;> subst hb <;> subst hr <;>
    simp [handle_action] <;> omega

/-- Witness for C8: the out-of-range index 9 from an admitted browser sender
is rejected with no step call and no metrics change, as is a message missing
the `action` key. -/
theorem handle_action_validation_witness :
    handle_action sampleEnv (some 9) "browser" false initialMetrics =
      ⟨.ok (.invalidIndex 9), initialMetrics, 0⟩ ∧
    handle_action sampleEnv none "browser" false initialMetrics =
      ⟨.ok .invalidFormat, initialMetrics, 0⟩ :=
  ⟨(handle_action_validation sampleEnv 9 "browser" false initialMetrics).1
      (by decide) (by decide),
    (handle_action_validation sampleEnv 9 "browser" false initialMetrics).2⟩

/-- An admitted, in-range action whose host step succeeds produces the normal
result reply and performs exactly one step call. -/
theorem handle_action_admitted_ok (env : EnvStepBehavior) (idx : Int) (role : String)
    (b : Bool) (m : Metrics) (s : StepOut)
    (hadm : (b = true ∧ role = "rl_agent") ∨ (b = false ∧ role = "browser"))
    (hidx : 0 ≤ idx ∧ idx < (THOR_DISCRETE_ACTIONS.length : Int))
    (hs : env.result = .ok s) :
    handle_action env (some idx) role b m =
      ⟨.ok (.result s.obs_shape s.reward (s.terminated || s.truncated)
          (applyStepMetrics m s env.last_event)),
        applyStepMetrics m s env.last_event, 1⟩ := by
  rcases hadm with ⟨hb, hr⟩ | ⟨hb, hr⟩ <;> subst hb <;> subst hr <;>
    simp [handle_action, hidx.1, hidx.2, hs]

/-- The reward accumulated over the first `i + 1` steps of a run. -/
def rewardPrefixSum (steps : List (Int × EnvStepBehavior)) (i : Nat) : ℚ :=
  ((steps.take (i + 1)).map fun p => stepReward p.2).sum

/-- Placeholder outcome used as the `getD` default. -/
def dfltOutcome : ActionOutcome := ⟨.ok .invalidFormat, initialMetrics, 0⟩

/-- Induction core for C7: along a run of admitted, valid, successful actions,
the `i`-th outcome's metrics carry step count `m.step_count + (i + 1)` and
episode reward `m.episode_reward` plus the prefix sum of host rewards, and its
reply is a normal result carrying those very metrics. -/
theorem runActions_spec (role : String) (b : Bool)
    (steps : List (Int × EnvStepBehavior)) (m : Metrics)
    (hadm : (b = true ∧ role = "rl_agent") ∨ (b = false ∧ role = "browser"))
    (hvalid : ∀ p ∈ steps,
      (0 ≤ p.1 ∧ p.1 < (THOR_DISCRETE_ACTIONS.length : Int)) ∧
      ∃ s, p.2.result = Except.ok s) :
    ∀ i, i < steps.length →
      ((runActions role b steps m).getD i dfltOutcome).metrics.step_count
          = m.step_count + (i + 1) ∧
      ((runActions role b steps m).getD i dfltOutcome).metrics.episode_reward
          = m.episode_reward + rewardPrefixSum steps i ∧
      ∃ sh rw dn, ((runActions role b steps m).getD i dfltOutcome).reply
          = .ok (.result sh rw dn
              (((runActions role b steps m).getD i dfltOutcome).metrics)) := by
  induction steps generalizing m with
  | nil => intro i hi; simp at hi
  | cons p rest ih =>
      intro i hi
      obtain ⟨idx, env⟩ := p
      obtain ⟨hidx, s, hs⟩ := hvalid _ (List.mem_cons_self _ _)
      have hs' : env.result = Except.ok s := hs
      have hact := handle_action_admitted_ok env idx role b m s hadm hidx hs'
      cases i with
      | zero =>
          refine ⟨?_, ?_, s.obs_shape, s.reward, s.terminated || s.truncated, ?_⟩ <;>
            simp [runActions, hact, rewardPrefixSum, stepReward, hs', applyStepMetrics]
      | succ j =>
          have hrest := ih (applyStepMetrics m s env.last_event)
            (fun q hq => hvalid q (List.mem_cons_of_mem _ hq)) j
            (by simpa using Nat.lt_of_succ_lt_succ hi)
          have htail :
              (runActions role b ((idx, env) :: rest) m).getD (j + 1) dfltOutcome
                = (runActions role b rest (applyStepMetrics m s env.last_event)).getD
                    j dfltOutcome := by
            simp [runActions, hact]
          rw [htail]
          refine ⟨?_, ?_, hrest.2.2⟩
          · rw [hrest.1]
            simp [applyStepMetrics]
            omega
          · rw [hrest.2.1]
            simp only [applyStepMetrics]
            rw [add_assoc]
            congr 1
            simp [rewardPrefixSum, stepReward, List.take_succ_cons]
            rw [hs']

/-- `mergeResetInfo` never touches the reward or step-count fields. -/
theorem mergeResetInfo_preserves (m : Metrics) (oi : Option ResetInfo) :
    (mergeResetInfo m oi).episode_reward = m.episode_reward ∧
    (mergeResetInfo m oi).step_count = m.step_count := by
  cases oi <;> exact ⟨rfl, rfl⟩

/-- C7: a reset command sets cumulative episode reward to 0 and step count to
0 in the metrics state; after a reset, a run of `n` admitted actions with
valid indices yields normal action results whose metrics carry step counts
1..n and whose cumulative episode reward equals the (ordered) sum of the
per-step rewards reported by the environment host. -/
theorem reset_then_step_metrics (envR : EnvResetBehavior) (d : ResetData)
    (role : String) (b : Bool) (steps : List (Int × EnvStepBehavior))
    (hadm : (b = true ∧ role = "rl_agent") ∨ (b = false ∧ role = "browser"))
    (hvalid : ∀ p ∈ steps,
      (0 ≤ p.1 ∧ p.1 < (THOR_DISCRETE_ACTIONS.length : Int)) ∧
      ∃ s, p.2.result = Except.ok s) :
    (handle_reset envR d).metrics.episode_reward = 0 ∧
    (handle_reset envR d).metrics.step_count = 0 ∧
    ∀ i, i < steps.length →
      ((runActions role b steps (handle_reset envR d).metrics).getD i
          dfltOutcome).metrics.step_count = i + 1 ∧
      ((runActions role b steps (handle_reset envR d).metrics).getD i
          dfltOutcome).metrics.episode_reward = rewardPrefixSum steps i ∧
      ∃ sh rw dn, ((runActions role b steps (handle_reset envR d).metrics).getD i
          dfltOutcome).reply
        = .ok (.result sh rw dn
            (((runActions role b steps (handle_reset envR d).metrics).getD i
              dfltOutcome).metrics)) := by
  have hzero : (handle_reset envR d).metrics.episode_reward = 0 ∧
      (handle_reset envR d).metrics.step_count = 0 := by
    unfold handle_reset
    rcases envR.result with e | r
    · exact ⟨rfl, rfl⟩
    · simpa using mergeResetInfo_preserves initialMetrics r.info
  refine ⟨hzero.1, hzero.2, ?_⟩
  intro i hi
  have h := runActions_spec role b steps (handle_reset envR d).metrics hadm hvalid i hi
  rw [hzero.1, hzero.2] at h
  simpa using h

/-- A second concrete step output, with reward one third. -/
def sampleStep2 : StepOut := ⟨[3, 720, 1280], 1/3, false, false, sampleInfo⟩

/-- A concrete host behaviour returning `sampleStep2`. -/
def sampleEnv2 : EnvStepBehavior := ⟨.ok sampleStep2, none⟩

/-- A concrete host behaviour for a reset. -/
def sampleResetEnv : EnvResetBehavior := ⟨.ok ⟨[3, 720, 1280], none⟩⟩

/-- A concrete two-action run. -/
def demoSteps : List (Int × EnvStepBehavior) := [(0, sampleEnv), (1, sampleEnv2)]

/-- Witness for C7: after a reset, two admitted valid actions with host
rewards 1/2 and 1/3 leave the second results metrics at step count 2 and
episode reward 5/6. -/
theorem reset_then_step_metrics_witness :
    ((runActions "browser" false demoSteps
        (handle_reset sampleResetEnv ⟨none, none⟩).metrics).getD 1
        dfltOutcome).metrics.step_count = 2 ∧
    ((runActions "browser" false demoSteps
        (handle_reset sampleResetEnv ⟨none, none⟩).metrics).getD 1
        dfltOutcome).metrics.episode_reward = 5/6 := by
  have hv : ∀ p ∈ demoSteps,
      (0 ≤ p.1 ∧ p.1 < (THOR_DISCRETE_ACTIONS.length : Int)) ∧
      ∃ s, p.2.result = Except.ok s := by
    intro p hp
    simp only [demoSteps, List.mem_cons, List.mem_singleton] at hp
    rcases hp with rfl | rfl | h
    · exact ⟨by decide, sampleStep, rfl⟩
    · exact ⟨by decide, sampleStep2, rfl⟩
    · simp at h
  have h := reset_then_step_metrics sampleResetEnv ⟨none, none⟩ "browser" false
    demoSteps (Or.inr ⟨rfl, rfl⟩) hv
  refine ⟨(h.2.2 1 (by decide)).1, ?_⟩
  rw [(h.2.2 1 (by decide)).2.1]
  norm_num [rewardPrefixSum, demoSteps, stepReward, sampleEnv, sampleEnv2,
    sampleStep, sampleStep2]

/-- `removeFirst` fails exactly on absent elements. -/
theorem removeFirst_eq_none (xs : List Nat) (y : Nat) :
    removeFirst xs y = none ↔ y ∉ xs := by
  induction xs with
  | nil => simp [removeFirst]
  | cons x xs ih =>
      by_cases h : x = y
      · subst h; simp [removeFirst]
      · simp only [removeFirst, h, if_false, Option.map_eq_none', ih,
          List.mem_cons, not_or]
        exact ⟨fun hn => ⟨fun hyx => h hyx.symm, hn⟩, fun hp => hp.2⟩

/-- After `rolesPop`, no role lookup for the popped connection succeeds. -/
theorem rolesPop_lookup (roles : List (Nat × String)) (ws : Nat) :
    (rolesPop roles ws).lookup ws = none := by
  induction roles with
  | nil => rfl
  | cons p rs ih =>
      unfold rolesPop at ih ⊢
      rw [List.filter_cons]
      by_cases h : p.1 = ws
      · simpa [h] using ih
      · have hne : (ws == p.1) = false := by
          simp only [beq_eq_false_iff_ne, ne_eq]
          exact fun e => h e.symm
        simpa [h, List.lookup, hne] using ih

/-- C9 counterexample: after disconnecting the only connection, a second
`disconnect` of the same connection is not a no-op: `connections.remove`
raises `ValueError`. -/
theorem disconnect_twice_raises :
    disconnect ⟨[0], [(0, "browser")]⟩ 0 = .ok ⟨[], []⟩ ∧
    disconnect ⟨[], []⟩ 0 = .error "ValueError" := ⟨rfl, rfl⟩

/-- C9 amended: `disconnect(conn)` on a registered connection removes its
first occurrence from the connection list and drops its role entry (after
which no role lookup for it succeeds); but `disconnect` is not idempotent: on
a connection that is not registered it raises `ValueError` (leaving the
registry unchanged, since the raise happens before any mutation). -/
theorem disconnect_spec (r : Registry) (ws : Nat) :
    (ws ∈ r.connections →
      ∃ cs, removeFirst r.connections ws = some cs ∧
        disconnect r ws = .ok ⟨cs, rolesPop r.connection_roles ws⟩ ∧
        (rolesPop r.connection_roles ws).lookup ws = none) ∧
    (ws ∉ r.connections → disconnect r ws = .error "ValueError") := by
  constructor
  · intro hmem
    rcases hrm : removeFirst r.connections ws with _ | cs
    · exact absurd ((removeFirst_eq_none r.connections ws).mp hrm) (by simpa using hmem)
    · exact ⟨cs, rfl, by simp [disconnect, hrm], rolesPop_lookup r.connection_roles ws⟩
  · intro h
    simp [disconnect, (removeFirst_eq_none r.connections ws).mpr h]

/-- Witness for C9 (amended): the first disconnect succeeds and empties the
registry; a disconnect of an absent connection raises `ValueError`. -/
theorem disconnect_spec_witness :
    disconnect ⟨[0], [(0, "browser")]⟩ 0 = .ok ⟨[], []⟩ ∧
    disconnect ⟨[], [(1, "browser")]⟩ 0 = .error "ValueError" := by
  refine ⟨?_, (disconnect_spec ⟨[], [(1, "browser")]⟩ 0).2 (by decide)⟩
  obtain ⟨cs, hcs, hd, -⟩ := (disconnect_spec ⟨[0], [(0, "browser")]⟩ 0).1 (by decide)
  have hc : cs = [] := by
    have h0 : removeFirst [0] 0 = some [] := rfl
    rw [h0] at hcs
    exact (Option.some_inj.mp hcs).symm
  subst hc
  simpa [rolesPop] using hd

/-- C4 counterexample: one registered browser connection, agent process not
running, the host's `step` raises during a valid admitted action.  Dispatch
sends *no* reply (in particular no error reply) and the connection is
disconnected (registry emptied), refuting "reported to the sender as an error
reply" and "the connection remains open". -/
theorem env_throw_dispatch_cex :
    endpoint_handle ⟨.error "ThorError", none⟩ sampleResetEnv (.ok ()) false
        (.actionMsg (some 3)) 0 ⟨⟨[0], [(0, "browser")]⟩, initialMetrics, true⟩ =
      ⟨[], ⟨⟨[], []⟩, initialMetrics, true⟩, false, 1⟩ := rfl

/-- C4 amended: when the environment host raises during the step of an
admitted valid action, or during the reset of a reset command, the exception
is caught only by the endpoint's outermost handler: the sender receives no
reply at all (no error reply), the connection is disconnected (removed from
the registry), and the server process and the broadcaster's streaming flag
are unaffected.  For the action branch the metrics are unchanged; for the
reset branch they are already zeroed. -/
theorem env_throw_dispatch (e : String) (reg : Registry) (m : Metrics)
    (str : Bool) (ws : Nat) (idx : Int) (le : Option AgentPose)
    (resetEnv : EnvResetBehavior) (resetEnv2 : Except String Unit)
    (d : ResetData) (stepEnv : EnvStepBehavior)
    (hrole : (reg.connection_roles.lookup ws).getD "browser" = "browser")
    (hidx : 0 ≤ idx ∧ idx < (THOR_DISCRETE_ACTIONS.length : Int)) :
    endpoint_handle ⟨.error e, le⟩ resetEnv resetEnv2 false
        (.actionMsg (some idx)) ws ⟨reg, m, str⟩ =
      ⟨[], ⟨catchRegistry reg ws, m, str⟩, false, 1⟩ ∧
    endpoint_handle stepEnv ⟨.error e⟩ resetEnv2 false (.resetMsg d) ws
        ⟨reg, m, str⟩ =
      ⟨[], ⟨catchRegistry reg ws, initialMetrics, str⟩, false, 0⟩ := by
  constructor
  · have hact : handle_action ⟨.error e, le⟩ (some idx) "browser" false m =
        ⟨.error e, m, 1⟩ := by
      simp [handle_action, hidx.1, hidx.2]
    simp [endpoint_handle, hrole, hact, endpointCatch]
  · simp [endpoint_handle, handle_reset, endpointCatch]

/-- Witness for C4 (amended): concrete dispatches with a raising host. -/
theorem env_throw_dispatch_witness :
    endpoint_handle ⟨.error "ThorError", none⟩ sampleResetEnv (.ok ()) false
        (.actionMsg (some 2)) 0 ⟨⟨[0], [(0, "browser")]⟩, initialMetrics, false⟩ =
      ⟨[], ⟨catchRegistry ⟨[0], [(0, "browser")]⟩ 0, initialMetrics, false⟩,
        false, 1⟩ ∧
    endpoint_handle sampleEnv ⟨.error "ThorError"⟩ (.ok ()) false
        (.resetMsg ⟨none, none⟩) 0 ⟨⟨[0], [(0, "browser")]⟩, initialMetrics, false⟩ =
      ⟨[], ⟨catchRegistry ⟨[0], [(0, "browser")]⟩ 0, initialMetrics, false⟩,
        false, 0⟩ :=
  env_throw_dispatch "ThorError" ⟨[0], [(0, "browser")]⟩ initialMetrics false 0 2
    none sampleResetEnv (.ok ()) ⟨none, none⟩ sampleEnv (by decide) (by decide)

/-- Scenario D trace: three frame messages whose `control_mode` runs
agent -> user -> agent (the wire values for the spec's agent/operator modes),
spaced a second apart so the throttle never suppresses a decision. -/
def scenarioD : List (AgentMsg × ℚ × Nat) :=
  [(.frame (some ⟨5, none, some "agent"⟩), 10, 2),
   (.frame (some ⟨5, none, some "user"⟩), 11, 3),
   (.frame (some ⟨5, none, some "agent"⟩), 12, 4)]

/-- The throttle interval `1 / decision_hz` for the default 4 Hz rate. -/
def decisionInterval : ℚ := 1/4

/-- C3 (evaluating the code at the failing input): over the Scenario D trace
the `run_agent_random` loop performs zero `save_checkpoint` and zero
`load_checkpoint` calls — not the one save and one load the claim requires —
while remaining live (it emits an action for each frame).  The loop never
consults `control_mode` and never invokes the checkpoint helpers. -/
theorem run_agent_random_no_checkpoints :
    (agent_run 500 decisionInterval scenarioD ⟨0⟩).2.2.count .save = 0 ∧
    (agent_run 500 decisionInterval scenarioD ⟨0⟩).2.2.count .load = 0 ∧
    (agent_run 500 decisionInterval scenarioD ⟨0⟩).2.1 =
      [.actionCmd 2, .actionCmd 3, .actionCmd 4] := by
  have h1 : agent_handle_msg 500 decisionInterval
      (.frame (some ⟨5, none, some "agent"⟩)) 10 2 ⟨0⟩ =
      (⟨10⟩, [.actionCmd 2], []) := by
    simp only [agent_handle_msg, Option.getD]
    rw [if_neg (by norm_num [decisionInterval]), if_neg (by simp)]
  have h2 : agent_handle_msg 500 decisionInterval
      (.frame (some ⟨5, none, some "user"⟩)) 11 3 ⟨10⟩ =
      (⟨11⟩, [.actionCmd 3], []) := by
    simp only [agent_handle_msg, Option.getD]
    rw [if_neg (by norm_num [decisionInterval]), if_neg (by simp)]
  have h3 : agent_handle_msg 500 decisionInterval
      (.frame (some ⟨5, none, some "agent"⟩)) 12 4 ⟨11⟩ =
      (⟨12⟩, [.actionCmd 4], []) := by
    simp only [agent_handle_msg, Option.getD]
    rw [if_neg (by norm_num [decisionInterval]), if_neg (by simp)]
  simp [agent_run, scenarioD, h1, h2, h3]

/-- The step-servicing wait completes exactly when (beyond anything already
held) the stream supplies both an error-free `action_result` and a `frame`. -/
theorem awaitActionParts_isSome (msgs : List BridgeMsg) (ar : Option ResultData)
    (fd : Option Nat) :
    (awaitActionParts msgs ar fd).isSome = true ↔
      (ar.isSome = true ∨ ∃ m ∈ msgs, m.isValidActionResult = true) ∧
      (fd.isSome = true ∨ ∃ m ∈ msgs, m.isFrame = true) := by
  induction msgs generalizing ar fd with
  | nil => cases ar <;> cases fd <;> simp [awaitActionParts]
  | cons m rest ih =>
      rcases ar with _ | d
      · cases m with
        | action_result d' =>
            by_cases he : d'.hasError <;>
              cases fd <;>
              simp [awaitActionParts, he, ih, BridgeMsg.isValidActionResult,
                BridgeMsg.isFrame]
        | reset_result d' =>
            cases fd <;>
              simp [awaitActionParts, ih, BridgeMsg.isValidActionResult,
                BridgeMsg.isFrame]
        | frame j =>
            cases fd <;>
              simp [awaitActionParts, ih, BridgeMsg.isValidActionResult,
                BridgeMsg.isFrame]
        | otherMsg =>
            cases fd <;>
              simp [awaitActionParts, ih, BridgeMsg.isValidActionResult,
                BridgeMsg.isFrame]
      · rcases fd with _ | j
        · cases m with
          | action_result d' =>
              by_cases he : d'.hasError <;>
                simp [awaitActionParts, he, ih, BridgeMsg.isValidActionResult,
                  BridgeMsg.isFrame]
          | reset_result d' =>
              simp [awaitActionParts, ih, BridgeMsg.isValidActionResult,
                BridgeMsg.isFrame]
          | frame j' =>
              simp [awaitActionParts, ih, BridgeMsg.isValidActionResult,
                BridgeMsg.isFrame]
          | otherMsg =>
              simp [awaitActionParts, ih, BridgeMsg.isValidActionResult,
                BridgeMsg.isFrame]
        · simp [awaitActionParts]

/-- The reset-servicing wait completes exactly when (beyond anything already
held) the stream supplies both a `reset_result` and a `frame`. -/
theorem awaitResetParts_isSome (msgs : List BridgeMsg) (rr : Option RData)
    (fd : Option Nat) :
    (awaitResetParts msgs rr fd).isSome = true ↔
      (rr.isSome = true ∨ ∃ m ∈ msgs, m.isResetResult = true) ∧
      (fd.isSome = true ∨ ∃ m ∈ msgs, m.isFrame = true) := by
  induction msgs generalizing rr fd with
  | nil => cases rr <;> cases fd <;> simp [awaitResetParts]
  | cons m rest ih =>
      rcases rr with _ | d
      · cases m <;> cases fd <;>
          simp [awaitResetParts, ih, BridgeMsg.isResetResult, BridgeMsg.isFrame]
      · rcases fd with _ | j
        · cases m <;>
            simp [awaitResetParts, ih, BridgeMsg.isResetResult, BridgeMsg.isFrame]
        · simp [awaitResetParts]

/-- The parts the step-servicing wait completes with come from the held
accumulators or the stream itself. -/
theorem awaitActionParts_mem (msgs : List BridgeMsg) (ar : Option ResultData)
    (fd : Option Nat) (d : ResultData) (j : Nat) :
    awaitActionParts msgs ar fd = some (d, j) →
      (ar = some d ∨ (BridgeMsg.action_result d ∈ msgs ∧ d.hasError = false)) ∧
      (fd = some j ∨ BridgeMsg.frame j ∈ msgs) := by
  induction msgs generalizing ar fd with
  | nil =>
      intro h
      rcases ar with _ | a <;> rcases fd with _ | b <;>
        simp [awaitActionParts] at h
      simp [h.1, h.2]
  | cons m rest ih =>
      intro h
      rcases ar with _ | a
      · cases m with
        | action_result d' =>
            rcases ih _ _ h with ⟨h1, h2⟩
            constructor
            · rcases h1 with h1 | h1
              · by_cases he : d'.hasError
                · simp [he] at h1
                · simp [he] at h1
                  exact Or.inr ⟨by simp [h1], by simp [← h1, he]⟩
              · exact Or.inr ⟨List.mem_cons_of_mem _ h1.1, h1.2⟩
            · rcases h2 with h2 | h2
              · exact Or.inl h2
              · exact Or.inr (List.mem_cons_of_mem _ h2)
        | reset_result d' =>
            rcases ih _ _ h with ⟨h1, h2⟩
            refine ⟨?_, ?_⟩
            · rcases h1 with h1 | h1
              · simp at h1
              · exact Or.inr ⟨List.mem_cons_of_mem _ h1.1, h1.2⟩
            · rcases h2 with h2 | h2
              · exact Or.inl h2
              · exact Or.inr (List.mem_cons_of_mem _ h2)
        | frame j' =>
            rcases ih _ _ h with ⟨h1, h2⟩
            refine ⟨?_, ?_⟩
            · rcases h1 with h1 | h1
              · simp at h1
              · exact Or.inr ⟨List.mem_cons_of_mem _ h1.1, h1.2⟩
            · rcases h2 with h2 | h2
              · simp at h2
                exact Or.inr (by simp [h2])
              · exact Or.inr (List.mem_cons_of_mem _ h2)
        | otherMsg =>
            rcases ih _ _ h with ⟨h1, h2⟩
            refine ⟨?_, ?_⟩
            · rcases h1 with h1 | h1
              · simp at h1
              · exact Or.inr ⟨List.mem_cons_of_mem _ h1.1, h1.2⟩
            · rcases h2 with h2 | h2
              · exact Or.inl h2
              · exact Or.inr (List.mem_cons_of_mem _ h2)
      · rcases fd with _ | b
        · cases m with
          | action_result d' =>
              rcases ih _ _ h with ⟨h1, h2⟩
              refine ⟨?_, ?_⟩
              · rcases h1 with h1 | h1
                · by_cases he : d'.hasError
                  · simp [he] at h1; exact Or.inl (by simp [h1])
                  · simp [he] at h1
                    exact Or.inr ⟨by simp [h1], by simp [← h1, he]⟩
                · exact Or.inr ⟨List.mem_cons_of_mem _ h1.1, h1.2⟩
              · rcases h2 with h2 | h2
                · simp at h2
                · exact Or.inr (List.mem_cons_of_mem _ h2)
          | reset_result d' =>
              rcases ih _ _ h with ⟨h1, h2⟩
              refine ⟨?_, ?_⟩
              · rcases h1 with h1 | h1
                · exact Or.inl (by simp [h1])
                · exact Or.inr ⟨List.mem_cons_of_mem _ h1.1, h1.2⟩
              · rcases h2 with h2 | h2
                · simp at h2
                · exact Or.inr (List.mem_cons_of_mem _ h2)
          | frame j' =>
              rcases ih _ _ h with ⟨h1, h2⟩
              refine ⟨?_, ?_⟩
              · rcases h1 with h1 | h1
                · exact Or.inl (by simp [h1])
                · exact Or.inr ⟨List.mem_cons_of_mem _ h1.1, h1.2⟩
              · rcases h2 with h2 | h2
                · simp at h2
                  exact Or.inr (by simp [h2])
                · exact Or.inr (List.mem_cons_of_mem _ h2)
          | otherMsg =>
              rcases ih _ _ h with ⟨h1, h2⟩
              refine ⟨?_, ?_⟩
              · rcases h1 with h1 | h1
                · exact Or.inl (by simp [h1])
                · exact Or.inr ⟨List.mem_cons_of_mem _ h1.1, h1.2⟩
              · rcases h2 with h2 | h2
                · simp at h2
                · exact Or.inr (List.mem_cons_of_mem _ h2)
        · simp [awaitActionParts] at h
          exact ⟨Or.inl (by simp [h.1]), Or.inl (by simp [h.2])⟩

/-- The parts the reset-servicing wait completes with come from the held
accumulators or the stream itself. -/
theorem awaitResetParts_mem (msgs : List BridgeMsg) (rr : Option RData)
    (fd : Option Nat) (d : RData) (j : Nat) :
    awaitResetParts msgs rr fd = some (d, j) →
      (rr = some d ∨ BridgeMsg.reset_result d ∈ msgs) ∧
      (fd = some j ∨ BridgeMsg.frame j ∈ msgs) := by
  induction msgs generalizing rr fd with
  | nil =>
      intro h
      rcases rr with _ | a <;> rcases fd with _ | b <;>
        simp [awaitResetParts] at h
      simp [h.1, h.2]
  | cons m rest ih =>
      intro h
      rcases rr with _ | a
      · cases m with
        | reset_result d' =>
            rcases ih _ _ h with ⟨h1, h2⟩
            refine ⟨Or.inr ?_, ?_⟩
            · rcases h1 with h1 | h1
              · simp at h1; simp [h1]
              · exact List.mem_cons_of_mem _ h1
            · rcases h2 with h2 | h2
              · exact Or.inl h2
              · exact Or.inr (List.mem_cons_of_mem _ h2)
        | action_result d' =>
            rcases ih _ _ h with ⟨h1, h2⟩
            refine ⟨?_, ?_⟩
            · rcases h1 with h1 | h1
              · simp at h1
              · exact Or.inr (List.mem_cons_of_mem _ h1)
            · rcases h2 with h2 | h2
              · exact Or.inl h2
              · exact Or.inr (List.mem_cons_of_mem _ h2)
        | frame j' =>
            rcases ih _ _ h with ⟨h1, h2⟩
            refine ⟨?_, ?_⟩
            · rcases h1 with h1 | h1
              · simp at h1
              · exact Or.inr (List.mem_cons_of_mem _ h1)
            · rcases h2 with h2 | h2
              · simp at h2; exact Or.inr (by simp [h2])
              · exact Or.inr (List.mem_cons_of_mem _ h2)
        | otherMsg =>
            rcases ih _ _ h with ⟨h1, h2⟩
            refine ⟨?_, ?_⟩
            · rcases h1 with h1 | h1
              · simp at h1
              · exact Or.inr (List.mem_cons_of_mem _ h1)
            · rcases h2 with h2 | h2
              · exact Or.inl h2
              · exact Or.inr (List.mem_cons_of_mem _ h2)
      · rcases fd with _ | b
        · cases m with
          | reset_result d' =>
              rcases ih _ _ h with ⟨h1, h2⟩
              refine ⟨?_, ?_⟩
              · rcases h1 with h1 | h1
                · simp at h1; exact Or.inr (by simp [h1])
                · exact Or.inr (List.mem_cons_of_mem _ h1)
              · rcases h2 with h2 | h2
                · simp at h2
                · exact Or.inr (List.mem_cons_of_mem _ h2)
          | action_result d' =>
              rcases ih _ _ h with ⟨h1, h2⟩
              refine ⟨?_, ?_⟩
              · rcases h1 with h1 | h1
                · exact Or.inl (by simp [h1])
                · exact Or.inr (List.mem_cons_of_mem _ h1)
              · rcases h2 with h2 | h2
                · simp at h2
                · exact Or.inr (List.mem_cons_of_mem _ h2)
          | frame j' =>
              rcases ih _ _ h with ⟨h1, h2⟩
              refine ⟨?_, ?_⟩
              · rcases h1 with h1 | h1
                · exact Or.inl (by simp [h1])
                · exact Or.inr (List.mem_cons_of_mem _ h1)
              · rcases h2 with h2 | h2
                · simp at h2; exact Or.inr (by simp [h2])
                · exact Or.inr (List.mem_cons_of_mem _ h2)
          | otherMsg =>
              rcases ih _ _ h with ⟨h1, h2⟩
              refine ⟨?_, ?_⟩
              · rcases h1 with h1 | h1
                · exact Or.inl (by simp [h1])
                · exact Or.inr (List.mem_cons_of_mem _ h1)
              · rcases h2 with h2 | h2
                · simp at h2
                · exact Or.inr (List.mem_cons_of_mem _ h2)
        · simp [awaitResetParts] at h
          exact ⟨Or.inl (by simp [h.1]), Or.inl (by simp [h.2])⟩

/-- C2: for every step or reset request the bridge services, the blocking
call completes (a response is enqueued) exactly when the incoming stream has
supplied *both* the operation-specific result message (error-free
`action_result`, resp. `reset_result`) and a `frame` message — in either
arrival order — and the response's observation is the decode of a frame
message from the stream. -/
theorem bridge_completes_on_both (msgs : List BridgeMsg) (height width : Nat) :
    ((bridge_service_step height width msgs).isSome = true ↔
      (∃ m ∈ msgs, m.isValidActionResult = true) ∧
      (∃ m ∈ msgs, m.isFrame = true)) ∧
    ((bridge_service_reset height width msgs).isSome = true ↔
      (∃ m ∈ msgs, m.isResetResult = true) ∧
      (∃ m ∈ msgs, m.isFrame = true)) ∧
    (∀ resp, bridge_service_step height width msgs = some resp →
      ∃ d j, BridgeMsg.action_result d ∈ msgs ∧ d.hasError = false ∧
        BridgeMsg.frame j ∈ msgs ∧
        resp.obs = some (jpeg_to_chw j height width)) ∧
    (∀ resp, bridge_service_reset height width msgs = some resp →
      ∃ d j, BridgeMsg.reset_result d ∈ msgs ∧ BridgeMsg.frame j ∈ msgs ∧
        resp.obs = some (jpeg_to_chw j height width)) := by
  refine ⟨?_, ?_, ?_, ?_⟩
  · have h := awaitActionParts_isSome msgs none none
    simp only [Option.isSome_none, Bool.false_eq_true, false_or] at h
    rw [← h]
    unfold bridge_service_step
    rcases hwa : awaitActionParts msgs none none with _ | ⟨dd, jj⟩
    · simp
    · by_cases hsk : dd.skipped = true <;> simp [hsk]
  · have h := awaitResetParts_isSome msgs none none
    simp only [Option.isSome_none, Bool.false_eq_true, false_or] at h
    rw [← h]
    unfold bridge_service_reset
    rcases hwa : awaitResetParts msgs none none with _ | ⟨dd, jj⟩ <;> simp
  · intro resp hresp
    unfold bridge_service_step at hresp
    rcases hwa : awaitActionParts msgs none none with _ | ⟨dd, jj⟩ <;>
      rw [hwa] at hresp
    · simp at hresp
    · have hm := awaitActionParts_mem msgs none none dd jj hwa
      rcases hm with ⟨h1 | h1, h2 | h2⟩
      · simp at h1
      · simp at h1
      · simp at h2
      · refine ⟨dd, jj, h1.1, h1.2, h2, ?_⟩
        by_cases hsk : dd.skipped = true <;> simp [hsk] at hresp <;>
          subst hresp <;> rfl
  · intro resp hresp
    unfold bridge_service_reset at hresp
    rcases hwa : awaitResetParts msgs none none with _ | ⟨dd, jj⟩ <;>
      rw [hwa] at hresp
    · simp at hresp
    · have hm := awaitResetParts_mem msgs none none dd jj hwa
      rcases hm with ⟨h1 | h1, h2 | h2⟩
      · simp at h1
      · simp at h1
      · simp at h2
      · refine ⟨dd, jj, h1, h2, ?_⟩
        simp only [Option.some_inj] at hresp
        subst hresp
        rfl

/-- A Scenario C message stream: the frame arrives before the matching
`action_result`. -/
def scenarioCMsgs : List BridgeMsg :=
  [.frame 7, .action_result ⟨false, false, some 1, some false, none⟩]

/-- A reset stream with the frame first. -/
def scenarioRMsgs : List BridgeMsg := [.frame 9, .reset_result ⟨none⟩]

/-- Witness for C2: with out-of-order arrival (frame before result) both the
step and the reset servicing complete. -/
theorem bridge_completes_on_both_witness :
    (bridge_service_step 720 1280 scenarioCMsgs).isSome = true ∧
    (bridge_service_reset 720 1280 scenarioRMsgs).isSome = true := by
  constructor
  · exact ((bridge_completes_on_both scenarioCMsgs 720 1280).1).mpr
      ⟨⟨.action_result ⟨false, false, some 1, some false, none⟩,
          by simp [scenarioCMsgs], rfl⟩,
        ⟨.frame 7, by simp [scenarioCMsgs], rfl⟩⟩
  · exact ((bridge_completes_on_both scenarioRMsgs 720 1280).2.1).mpr
      ⟨⟨.reset_result ⟨none⟩, by simp [scenarioRMsgs], rfl⟩,
        ⟨.frame 9, by simp [scenarioRMsgs], rfl⟩⟩

/-- C5 counterexample: when the bridge's exception handler resolves an
in-flight reset with the error tuple, the blocking `reset()` call does not
return that tuple — it raises `RuntimeError("Reset failed")` to the caller. -/
theorem client_reset_raises_cex :
    client_reset ⟨500, 7⟩ (bridge_error_response "boom") =
      (⟨500, 0⟩, .error "Reset failed") := rfl

/-- C5 amended: an exception while the bridge services a request enqueues the
terminal tuple (observation `None`, reward 0, terminated and truncated both
true, the error message in the info dict); `step()` then returns a terminal
tuple with a zero observation and the error info, never raising; `reset()`
however raises `RuntimeError("Reset failed")` (dropping the original message)
instead of resolving. -/
theorem bridge_error_resolution (e : String) (st : ClientState)
    (height width : Nat) :
    (client_step st height width (bridge_error_response e)).2.terminated = true ∧
    (client_step st height width (bridge_error_response e)).2.truncated = true ∧
    (client_step st height width (bridge_error_response e)).2.reward = 0 ∧
    (client_step st height width (bridge_error_response e)).2.info = .fromError e ∧
    (client_step st height width (bridge_error_response e)).2.obs =
      zerosObs height width ∧
    (client_step st height width (bridge_error_response e)).1.step_count =
      st.step_count + 1 ∧
    (client_reset st (bridge_error_response e)).2 = .error "Reset failed" := by
  refine ⟨rfl, ?_, rfl, rfl, rfl, rfl, rfl⟩
  simp [client_step, bridge_error_response]

/-- Skipped action-result data as sent by the backend. -/
def skippedData : ResultData := ⟨false, true, none, none, some initialMetrics⟩

/-- A stream answering a step with a skipped result and a frame. -/
def skippedMsgs : List BridgeMsg := [.action_result skippedData, .frame 4]

/-- C10: the client enforces a local episode cap independent of the server:
`step()` always increments the local counter, `reset()` zeroes it, the
returned tuple is truncated whenever the incremented counter reaches
`max_steps` (default 500) regardless of the server's response, and a skipped
server result yields a zero-reward non-terminal response that still advances
the local counter. -/
theorem client_episode_cap (st : ClientState) (height width : Nat)
    (resp : BridgeResponse) (msgs : List BridgeMsg) (d : ResultData) (j : Nat) :
    (client_step st height width resp).1.step_count = st.step_count + 1 ∧
    (client_reset st resp).1.step_count = 0 ∧
    (st.step_count + 1 ≥ st.max_steps →
      (client_step st height width resp).2.truncated = true) ∧
    default_max_steps = 500 ∧
    (awaitActionParts msgs none none = some (d, j) → d.skipped = true →
      bridge_service_step height width msgs =
        some ⟨some (jpeg_to_chw j height width), 0, false, false,
          .fromMetrics d.metrics⟩ ∧
      (st.step_count + 1 < st.max_steps →
        (client_step st height width ⟨some (jpeg_to_chw j height width), 0,
            false, false, .fromMetrics d.metrics⟩).2.truncated = false ∧
        (client_step st height width ⟨some (jpeg_to_chw j height width), 0,
            false, false, .fromMetrics d.metrics⟩).2.terminated = false ∧
        (client_step st height width ⟨some (jpeg_to_chw j height width), 0,
            false, false, .fromMetrics d.metrics⟩).2.reward = 0 ∧
        (client_step st height width ⟨some (jpeg_to_chw j height width), 0,
            false, false, .fromMetrics d.metrics⟩).1.step_count =
          st.step_count + 1)) := by
  refine ⟨rfl, rfl, ?_, rfl, ?_⟩
  · intro h
    simp [client_step, h]
  · intro hwa hsk
    constructor
    · unfold bridge_service_step
      rw [hwa]
      simp [hsk]
    · intro hlt
      refine ⟨?_, rfl, rfl, rfl⟩
      simp only [client_step]
      rw [if_neg (by omega)]

/-- Witness for C10: a skipped result still advances the local counter with a
zero-reward non-terminal tuple, and at the cap the tuple is truncated. -/
theorem client_episode_cap_witness :
    (client_step ⟨5, 4⟩ 720 1280 (bridge_error_response "x")).2.truncated = true ∧
    bridge_service_step 720 1280 skippedMsgs =
      some ⟨some (jpeg_to_chw 4 720 1280), 0, false, false,
        .fromMetrics skippedData.metrics⟩ ∧
    (client_step ⟨500, 3⟩ 720 1280 ⟨some (jpeg_to_chw 4 720 1280), 0, false,
        false, .fromMetrics skippedData.metrics⟩).2.truncated = false ∧
    (client_step ⟨500, 3⟩ 720 1280 ⟨some (jpeg_to_chw 4 720 1280), 0, false,
        false, .fromMetrics skippedData.metrics⟩).1.step_count = 4 := by
  have h1 := (client_episode_cap ⟨5, 4⟩ 720 1280 (bridge_error_response "x")
    skippedMsgs skippedData 4).2.2.1 (by decide)
  have h2 := (client_episode_cap ⟨500, 3⟩ 720 1280 (bridge_error_response "x")
    skippedMsgs skippedData 4).2.2.2.2 rfl rfl
  exact ⟨h1, h2.1, (h2.2 (by decide)).1, (h2.2 (by decide)).2.2.2⟩

/-- Applying a server-side mutation after a delivery. -/
def serverUpdate (g : Metrics → Metrics) (s : ConsumerSession) : ConsumerSession :=
  { s with server := g s.server }

/-- C6: every metrics payload delivered to a consumer is a value copy of the
authoritative metrics at serialization time — the broadcast payload embeds
the metrics value with the derived control mode, and the reply payload
(stored by reference server-side) serializes to the authoritative value when
sent — and no consumer-side mutation of a received payload, nor any later
server-side mutation, can change the other side: delivery and consumer
mutation leave the server metrics untouched, and a server update after
delivery leaves the received copies untouched. -/
theorem metrics_value_copy (m : Metrics) (b : Bool) (s : ConsumerSession)
    (p : MetricsPayload) (f : DeliveredMetrics → DeliveredMetrics) (i : Nat)
    (g : Metrics → Metrics) :
    send_json m (broadcast_metrics_payload m b) =
      .withMode ⟨m, if b then "agent" else "user"⟩ ∧
    send_json m reply_metrics_payload = .plain m ∧
    (deliverPayload s p).server = s.server ∧
    (consumerMutate f i s).server = s.server ∧
    (serverUpdate g (deliverPayload s p)).received =
      (deliverPayload s p).received :=
  ⟨rfl, rfl, rfl, rfl, rfl⟩

end DreamAI
